import Mathlib

set_option maxRecDepth 8192

/-!
Verification development for the Cal.com → Notion + WhatsApp integration
service (`src/main.py`).  The Python source is shallowly embedded: bytes are
`List Nat` (each entry < 256), machine words are `Nat` reduced mod 2^32,
wall-clock instants are `Int` seconds in the service's local zone, and the
external collaborators (Notion HTTP API, Z-API WhatsApp gateway, pydantic
JSON validation) are oracle parameters.  Every definition follows the
corresponding function of `src/main.py`; line references are given in the
doc comments.
-/

/-! ## SHA-256 and HMAC-SHA256 over byte lists

`verify_signature` (src/main.py lines 104-110) calls
`hmac.new(CAL_SECRET, raw_body, hashlib.sha256).hexdigest()`.  The digest
algorithm is embedded here exactly (FIPS 180-4 / RFC 2104), executable on
concrete byte lists. -/

/-- Reduce a natural number to a 32-bit machine word. -/
def w32 (x : Nat) : Nat := x % 4294967296

/-- 32-bit rotate right (input assumed < 2^32). -/
def rotr (n x : Nat) : Nat := w32 ((x >>> n) ||| (x <<< (32 - n)))

/-- SHA-256 big sigma 0. -/
def bsig0 (x : Nat) : Nat := (rotr 2 x) ^^^ (rotr 13 x) ^^^ (rotr 22 x)

/-- SHA-256 big sigma 1. -/
def bsig1 (x : Nat) : Nat := (rotr 6 x) ^^^ (rotr 11 x) ^^^ (rotr 25 x)

/-- SHA-256 small sigma 0. -/
def ssig0 (x : Nat) : Nat := (rotr 7 x) ^^^ (rotr 18 x) ^^^ (x >>> 3)

/-- SHA-256 small sigma 1. -/
def ssig1 (x : Nat) : Nat := (rotr 17 x) ^^^ (rotr 19 x) ^^^ (x >>> 10)

/-- SHA-256 choice function. -/
def chF (e f g : Nat) : Nat := (e &&& f) ^^^ ((e ^^^ 4294967295) &&& g)

/-- SHA-256 majority function. -/
def majF (a b c : Nat) : Nat := (a &&& b) ^^^ (a &&& c) ^^^ (b &&& c)

/-- The 64 SHA-256 round constants (FIPS 180-4 §4.2.2, written in
decimal). -/
def K256 : List Nat :=
  [1116352408, 1899447441, 3049323471, 3921009573, 961987163,
   1508970993, 2453635748, 2870763221, 3624381080, 310598401,
   607225278, 1426881987, 1925078388, 2162078206, 2614888103,
   3248222580, 3835390401, 4022224774, 264347078, 604807628,
   770255983, 1249150122, 1555081692, 1996064986, 2554220882,
   2821834349, 2952996808, 3210313671, 3336571891, 3584528711,
   113926993, 338241895, 666307205, 773529912, 1294757372,
   1396182291, 1695183700, 1986661051, 2177026350, 2456956037,
   2730485921, 2820302411, 3259730800, 3345764771, 3516065817,
   3600352804, 4094571909, 275423344, 430227734, 506948616,
   659060556, 883997877, 958139571, 1322822218, 1537002063,
   1747873779, 1955562222, 2024104815, 2227730452, 2361852424,
   2428436474, 2756734187, 3204031479, 3329325298]

/-- The SHA-256 initial hash state (FIPS 180-4 §5.3.3, in decimal). -/
def H256 : List Nat :=
  [1779033703, 3144134277, 1013904242, 2773480762,
   1359893119, 2600822924, 528734635, 1541459225]

/-- SHA-256 message padding: append 0x80, zeros, and the 64-bit big-endian
bit length, to a multiple of 64 bytes. -/
def sha256pad (msg : List Nat) : List Nat :=
  let L := msg.length
  let z := (64 - ((L + 9) % 64)) % 64
  msg ++ [128] ++ List.replicate z 0 ++
    (List.range 8).map (fun i => ((8 * L) >>> (8 * (7 - i))) % 256)

/-- One round of the SHA-256 compression loop, over the eight-word working
state (an input of any other shape is left unchanged, which never happens
when starting from the eight-word initial state). -/
def sha256round (kws : List Nat) (st : List Nat) (i : Nat) : List Nat :=
  match st with
  | [a, b, c, d, e, f, g, hh] =>
    let t1 := w32 (hh + bsig1 e + chF e f g + K256.getD i 0 + kws.getD i 0)
    let t2 := w32 (bsig0 a + majF a b c)
    [w32 (t1 + t2), a, b, c, w32 (d + t1), e, f, g]
  | other => other

/-- One SHA-256 compression step over a 64-byte block. -/
def sha256block (h : List Nat) (blk : List Nat) : List Nat :=
  let w16 := (List.range 16).map (fun i =>
    (blk.getD (4 * i) 0) * 16777216 + (blk.getD (4 * i + 1) 0) * 65536 +
    (blk.getD (4 * i + 2) 0) * 256 + blk.getD (4 * i + 3) 0)
  let w := (List.range 48).foldl (fun acc _ =>
    let n := acc.length
    acc ++ [w32 (acc.getD (n - 16) 0 + ssig0 (acc.getD (n - 15) 0) +
                 acc.getD (n - 7) 0 + ssig1 (acc.getD (n - 2) 0))]) w16
  let st := (List.range 64).foldl (sha256round w) h
  List.zipWith (fun x y => w32 (x + y)) h st

/-- The four big-endian bytes of a 32-bit word. -/
def wordBytes (wd : Nat) : List Nat :=
  [wd / 16777216 % 256, wd / 65536 % 256, wd / 256 % 256, wd % 256]

/-- The eight words of the final SHA-256 state of a message. -/
def sha256words (msg : List Nat) : List Nat :=
  (List.range ((sha256pad msg).length / 64)).foldl
    (fun h i => sha256block h (((sha256pad msg).drop (64 * i)).take 64)) H256

/-- SHA-256 of a byte list, as the 32 digest bytes. -/
def sha256 (msg : List Nat) : List Nat := ((sha256words msg).map wordBytes).flatten

/-- HMAC-SHA256 (RFC 2104): block size 64, as implemented by Python `hmac`. -/
def hmacSha256 (key msg : List Nat) : List Nat :=
  let k0 := if 64 < key.length then sha256 key else key
  let kp := k0 ++ List.replicate (64 - k0.length) 0
  sha256 ((kp.map (fun b => b ^^^ 92)) ++ sha256 ((kp.map (fun b => b ^^^ 54)) ++ msg))

/-- Lowercase hexadecimal digit. -/
def hexChar (n : Nat) : Char := if n < 10 then Char.ofNat (48 + n) else Char.ofNat (87 + n)

/-- Lowercase hex rendering of a byte list (Python `.hexdigest()`). -/
def bytesToHex (bs : List Nat) : String :=
  ⟨(bs.map (fun b => [hexChar (b / 16), hexChar (b % 16)])).flatten⟩

/-- `hmac.new(key, msg, hashlib.sha256).hexdigest()`. -/
def hmacHex (key msg : List Nat) : String := bytesToHex (hmacSha256 key msg)

/-! ## verify_signature (src/main.py lines 104-110)

Line 105 tests `if not signature_header:` — Python truthiness, so an
absent header *and* a present-but-empty header both raise
`HTTPException(400, "Missing signature")`; only a present non-empty header
reaching the digest comparison can raise the
`HTTPException(401, "Invalid signature")` of line 110.
`hmac.compare_digest` is a timing-safe string equality. -/

/-- The two failure modes of `verify_signature`, with the HTTP status code
each one raises in the source. -/
inductive AuthFail
  | missingSignature
  | invalidSignature
deriving DecidableEq, Repr

/-- HTTP status carried by each `verify_signature` failure in the source:
line 106 raises 400 for a missing header, line 110 raises 401 for a bad
digest. -/
def authFailStatus : AuthFail → Nat
  | .missingSignature => 400
  | .invalidSignature => 401

/-- `verify_signature(signature_header, raw_body)` from src/main.py
lines 104-110, with the shared secret passed explicitly.  The falsy check
of line 105 covers both an absent header and an empty string. -/
def verify_signature (secret : List Nat) (signature_header : Option String)
    (raw_body : List Nat) : Except AuthFail Unit :=
  match signature_header with
  | none => .error .missingSignature
  | some h =>
    if h == "" then .error .missingSignature
    else if hmacHex secret raw_body == h then .ok () else .error .invalidSignature

deriving instance DecidableEq for Except

-- Sanity vectors for the digest embedding (FIPS 180-4 / RFC 4231 test data).
theorem sha256_empty_vector :
    bytesToHex (sha256 []) =
      "e3b0c44298fc1c149afbf4c8996fb92427ae41e4649b934ca495991b7852b855" := by decide

theorem sha256_abc_vector :
    bytesToHex (sha256 [97, 98, 99]) =
      "ba7816bf8f01cfea414140de5dae2223b00361a396177a9cb410ff61f20015ad" := by decide

theorem hmac_rfc4231_case2_vector :
    hmacHex [74, 101, 102, 101] [119, 104, 97, 116, 32, 100, 111, 32, 121, 97, 32, 119,
      97, 110, 116, 32, 102, 111, 114, 32, 110, 111, 116, 104, 105, 110, 103, 63] =
      "5bdcc146bf60754e6a042426089575c75a003f089d2739839dec58b964ec3843" := by decide

/-! ## Python truthiness for optional strings

Several branches of the source test optional strings with bare `if x:` /
`if not x:`; in Python both `None` and `""` are falsy. -/

/-- Python truthiness of an optional string: `None` and `""` are falsy. -/
def pyTruthy : Option String → Bool
  | none => false
  | some s => !(s == "")

/-! ## Phone normalization

The source inlines two dual normalizations; the spec names them
`toQueryForm` (src/main.py lines 125-129, inside `notion_find_page`:
strip non-digits, drop a leading `55`) and `toDispatchForm`
(src/main.py lines 185-189, inside `send_wa_message`: strip non-digits,
ensure a leading `55`). -/

/-- The digit characters of a string, in order (Python
`''.join(filter(str.isdigit, phone))`).  `Char.isDigit` is ASCII `0`-`9`;
Python's `str.isdigit` also accepts non-ASCII Unicode digit characters,
which do not occur in the phone alphabet this filter is applied to. -/
def digitsOf (s : String) : List Char := s.data.filter Char.isDigit

/-- Whether a digit list starts with the Brazilian country code `55`
(Python `clean_phone.startswith('55')`). -/
def starts55 : List Char → Bool
  | a :: b :: _ => a == '5' && b == '5'
  | _ => false

/-- Drop a leading `55` when present (src/main.py lines 128-129). -/
def strip55 (l : List Char) : List Char := if starts55 l then l.drop 2 else l

/-- Prepend `55` when absent (src/main.py lines 188-189). -/
def ensure55 (l : List Char) : List Char := if starts55 l then l else '5' :: '5' :: l

/-- Query-form phone used against the Notion `Telefone` field
(src/main.py lines 125-129). -/
def toQueryForm (s : String) : String := ⟨strip55 (digitsOf s)⟩

/-- Dispatch-form phone used for outbound Z-API sends
(src/main.py lines 185-189). -/
def toDispatchForm (s : String) : String := ⟨ensure55 (digitsOf s)⟩

/-! ## Calendar arithmetic

`schedule_messages` renders `%H:%M` and `format_pt_br` renders
`%d/%m/%Y - %I:%M%p` from zone-aware datetimes.  Instants are embedded as
`Int` seconds on the service's local wall clock; the civil-date conversions
are the standard proleptic-Gregorian algorithms with floor division. -/

/-- Days since 1970-01-01 of a civil date (proleptic Gregorian). -/
def daysFromCivil (y m d : Int) : Int :=
  let yy := if m ≤ 2 then y - 1 else y
  let era := yy.ediv 400
  let yoe := yy - era * 400
  let mp := (m + 9).emod 12
  let doy := (153 * mp + 2).ediv 5 + d - 1
  let doe := yoe * 365 + yoe.ediv 4 - yoe.ediv 100 + doy
  era * 146097 + doe - 719468

/-- Local-wall-clock seconds of a civil date-time. -/
def civilToSecs (y m d hh mi ss : Int) : Int :=
  daysFromCivil y m d * 86400 + hh * 3600 + mi * 60 + ss

/-- Civil date (year, month, day) of a day number since 1970-01-01. -/
def civilFromDays (z0 : Int) : Int × Int × Int :=
  let z := z0 + 719468
  let era := z.ediv 146097
  let doe := z - era * 146097
  let yoe := (doe - doe.ediv 1460 + doe.ediv 36524 - doe.ediv 146096).ediv 365
  let y := yoe + era * 400
  let doy := doe - (365 * yoe + yoe.ediv 4 - yoe.ediv 100)
  let mp := (5 * doy + 2).ediv 153
  let d := doy - (153 * mp + 2).ediv 5 + 1
  let m := if mp < 10 then mp + 3 else mp - 9
  (if m ≤ 2 then y + 1 else y, m, d)

/-- Two-digit zero padding of a field value. -/
def pad2 (n : Int) : String := if n < 10 then "0" ++ toString n else toString n

/-- `meeting_dt.strftime("%H:%M")` (src/main.py line 244). -/
def strftimeHM (t : Int) : String :=
  pad2 ((t.ediv 3600).emod 24) ++ ":" ++ pad2 ((t.ediv 60).emod 60)

/-- `format_pt_br` (src/main.py lines 113-114):
`dt.strftime("%d/%m/%Y - %I:%M%p").lower()` (the trailing `.replace` calls
are identities). -/
def format_pt_br (t : Int) : String :=
  let ymd := civilFromDays (t.ediv 86400)
  let secs := t.emod 86400
  let hour := secs.ediv 3600
  let minute := (secs.emod 3600).ediv 60
  let h12 := if hour.emod 12 == 0 then 12 else hour.emod 12
  let ampm := if hour < 12 then "am" else "pm"
  pad2 ymd.2.2 ++ "/" ++ pad2 ymd.2.1 ++ "/" ++ toString ymd.1 ++ " - " ++
    pad2 h12 ++ ":" ++ pad2 minute ++ ampm

/-! ## The APScheduler job registry and schedule_messages

`scheduler` is a process-wide `AsyncIOScheduler`; `add_job(..., id=...,
replace_existing=True)` replaces any pending job carrying the same id.  The
registry is embedded as a list of `(job id, run_date, rendered message)`
entries; `replace_existing` removes the entry with the same id before
inserting. -/

/-- One pending job: id, run date (local seconds), rendered message
argument. -/
abbrev Job := String × Int × String

/-- The scheduler's pending-job registry. -/
abbrev Registry := List Job

/-- `scheduler.add_job(..., id=jobId, replace_existing=True)`: drop any
pending entry with the same id, insert the new one. -/
def add_job (reg : Registry) (jobId : String) (runDate : Int) (msg : String) : Registry :=
  reg.filter (fun j => !(j.1 == jobId)) ++ [(jobId, runDate, msg)]

/-- `schedule_messages(first_name, meeting_dt)` (src/main.py lines 243-271):
three `add_job` calls with ids derived from `meeting_dt.timestamp()` only
(the suffixes `_1day`, `_4h`, `_after`) and run dates at the fixed offsets
−24h, −4h, +1h. -/
def schedule_messages (reg : Registry) (first_name : String) (meeting_dt : Int) : Registry :=
  let meeting_str := strftimeHM meeting_dt
  let r1 := add_job reg ("whatsapp_" ++ toString meeting_dt ++ "_1day") (meeting_dt - 86400)
    ("Olá " ++ first_name ++ ", amanhã temos nossa reunião às " ++ meeting_str ++
     ". Estamos ansiosos para falar com você!")
  let r2 := add_job r1 ("whatsapp_" ++ toString meeting_dt ++ "_4h") (meeting_dt - 14400)
    ("Oi " ++ first_name ++ ", tudo certo para a nossa reunião hoje às " ++ meeting_str ++ "?")
  add_job r2 ("whatsapp_" ++ toString meeting_dt ++ "_after") (meeting_dt + 3600)
    (first_name ++ ", obrigado pela reunião! Qualquer dúvida, estamos à disposição.")

/-! ## Outbound WhatsApp dispatch

`send_wa_message` (src/main.py lines 183-240) posts to the Z-API gateway and
calls `response.raise_for_status()`, re-raising on failure after logging.
The gateway is embedded as an oracle `sendOk : String → Bool` on the
dispatch-form phone.  A successful send is the pair (dispatch phone,
message); a raised exception is `none`.  Because the exception propagates,
every loop over recipients aborts at the first failing send. -/

/-- `send_wa_message(phone, message)`: `some (cleanPhone, message)` on
success, `none` when the gateway call raises. -/
def send_wa_message (sendOk : String → Bool) (phone message : String) :
    Option (String × String) :=
  let clean := toDispatchForm phone
  if sendOk clean then some (clean, message) else none

/-- The `for phone in phones: send_wa_message(phone, msg)` loop shared by
`send_wa_bulk` and the admin fan-out of
`send_immediate_booking_notifications`: sequential sends, an exception
aborts the rest of the loop.  Returns the sends that happened and whether
the loop completed. -/
def send_loop (sendOk : String → Bool) (phones : List String) (msg : String) :
    List (String × String) × Bool :=
  match phones with
  | [] => ([], true)
  | p :: ps =>
    match send_wa_message sendOk p msg with
    | some rec =>
      let r := send_loop sendOk ps msg
      (rec :: r.1, r.2)
    | none => ([], false)

/-- `send_wa_bulk(message)` (src/main.py lines 274-276): send to every
configured admin phone in order. -/
def send_wa_bulk (sendOk : String → Bool) (adminPhones : List String) (message : String) :
    List (String × String) × Bool :=
  send_loop sendOk adminPhones message

/-- The fixed Zoom link of src/main.py line 312. -/
def zoom_url : String := "https://us06web.zoom.us/j/8902841864?pwd=OIjXN37C7fjELriVg4y387EbXUSVsR.1"

/-- `send_immediate_booking_notifications(attendee_name, whatsapp, start_dt)`
(src/main.py lines 309-330): lead message first when a truthy WhatsApp
number was resolved, then the admin fan-out; a raised send exception
propagates and aborts everything after it. -/
def send_immediate_booking_notifications (sendOk : String → Bool)
    (adminPhones : List String) (attendee_name : String) (whatsapp : Option String)
    (start_dt : Int) : List (String × String) × Bool :=
  let formatted_dt := format_pt_br start_dt
  let lead_message := "Olá " ++ attendee_name ++
    ", sua reunião foi agendada com sucesso! 🎉\n\n📅 Data: " ++ formatted_dt ++
    "\n🖥️ Link da reunião Zoom:\n" ++ zoom_url ++ " "
  let sales_message := "💼 Nova Reunião Agendada!\n\n👤 Cliente: " ++ attendee_name ++
    "\n📅 Data: " ++ formatted_dt
  if pyTruthy whatsapp then
    match send_wa_message sendOk (whatsapp.getD "") lead_message with
    | some rec =>
      let r := send_loop sendOk adminPhones sales_message
      (rec :: r.1, r.2)
    | none => ([], false)
  else
    send_loop sendOk adminPhones sales_message

/-! ## Notion collaborator model

`notion_find_page` (src/main.py lines 117-154) builds an equality filter
and queries the Notion database; the HTTP query is the oracle
`NotionFilter → List String` returning page ids in store order.  The page
GET of the fallback chain (lines 403-414) is an oracle from page id to its
properties. -/

/-- The query filter shapes built by `notion_find_page`. -/
inductive NotionFilter
  | emailEq (e : String)
  | phoneEq (p : String)
  | orF (a b : NotionFilter)
deriving DecidableEq, Repr

/-- One external Notion interaction, recorded in order. -/
inductive NotionCall
  | query (f : NotionFilter)
  | getPage (pageId : String)
  | updatePage (pageId : String) (whenStr : String)
deriving DecidableEq, Repr

/-- `notion_find_page(email, phone)` (src/main.py lines 117-154): returns
`None` immediately when both arguments are falsy (no HTTP call); otherwise
builds the email/phone equality filters (phone in query form), OR-combined
when both are present, queries, and returns the first result id.  The
second component records the HTTP calls made. -/
def notion_find_page (q : NotionFilter → List String) (email phone : Option String) :
    Option String × List NotionCall :=
  if !(pyTruthy email || pyTruthy phone) then (none, [])
  else
    let filt :=
      match pyTruthy email, pyTruthy phone with
      | true, true =>
        NotionFilter.orF (.emailEq (email.getD "")) (.phoneEq (toQueryForm (phone.getD "")))
      | true, false => .emailEq (email.getD "")
      | _, _ => .phoneEq (toQueryForm (phone.getD ""))
    ((q filt).head?, [.query filt])

/-- A Notion page property as inspected by the fallback chain: its `type`
tag and the `plain_text` values of its `rich_text` payload. -/
structure NotionProp where
  type : String
  rich_text : List String
deriving DecidableEq, Repr

/-- The property scan of src/main.py lines 411-414: first property named
`Telefone` of type `rich_text` with a non-empty payload, taking its first
`plain_text`. -/
def scan_telefone : List (String × NotionProp) → Option String
  | [] => none
  | (k, v) :: rest =>
    if k == "Telefone" && v.type == "rich_text" && !v.rich_text.isEmpty then
      v.rich_text.head?
    else scan_telefone rest

/-! ## Webhook payload model

The pydantic models of src/main.py lines 55-79.  `startTime` is embedded
already parsed and zone-converted (the `datetime.fromisoformat(...)
.astimezone(TZ)` of line 374) as local seconds.  `userFieldsResponses`
is `Optional[UserFieldsResponses]` whose `Whatsapp` field is an optional
string-keyed dict.  `Booking` declares no `responses` field, so the
`getattr(data.payload, 'responses', None)` of line 393 always yields
`None`; the chain helper still takes the parameter so lines 392-398 are
embedded faithfully. -/

/-- `Attendee` (src/main.py lines 55-60), the fields the handler reads. -/
structure Attendee where
  name : String
  email : String
deriving DecidableEq, Repr

/-- `Booking` (src/main.py lines 67-74): `attendees` is a plain
`List[Attendee]` with no minimum length, so an empty list validates. -/
structure Booking where
  startTime : Int
  attendees : List Attendee
  uid : String
  userFieldsResponses : Option (Option (List (String × String)))
deriving DecidableEq, Repr

/-- `CalWebhookPayload` (src/main.py lines 77-79). -/
structure CalWebhookPayload where
  trigger_event : String
  payload : Booking
deriving DecidableEq, Repr

/-- Python `dict.get(k)` over a string-keyed dict. -/
def dictGet (d : List (String × String)) (k : String) : Option String :=
  (d.find? (fun p => p.1 == k)).map (fun p => p.2)

/-- Stage 1 of the fallback chain (src/main.py lines 384-390): with a
validated pydantic payload the live branch is
`ufr.Whatsapp.get("value")`, reached only when `userFieldsResponses` is
present and its `Whatsapp` field is a dict. -/
def ufr_whatsapp_value : Option (Option (List (String × String))) → Option String
  | some (some d) => dictGet d "value"
  | _ => none

/-- Stage 2 of the fallback chain (src/main.py lines 392-398):
`resp['WhatsApp']['value']` when the generic responses dict is present and
carries that nested key. -/
def responses_whatsapp_value
    (responses : Option (List (String × List (String × String)))) : Option String :=
  match responses with
  | some rd =>
    match (rd.find? (fun p => p.1 == "WhatsApp")).map (fun p => p.2) with
    | some inner => dictGet inner "value"
    | none => none
  | none => none

/-- The value of `whatsapp` after the two payload-embedded stages of the
chain (src/main.py lines 383-398): stage 1's value when truthy, otherwise
stage 2's assignment when it fires, otherwise stage 1's (falsy) value. -/
def local_hints_value (ufr : Option (Option (List (String × String))))
    (responses : Option (List (String × List (String × String)))) : Option String :=
  let w1 := ufr_whatsapp_value ufr
  if pyTruthy w1 then w1
  else
    match responses_whatsapp_value responses with
    | some v => some v
    | none => w1

/-- The attendee WhatsApp fallback chain of src/main.py lines 383-414:
stage 1 `userFieldsResponses`, stage 2 `responses` (only if stage 1 left a
falsy value), stage 3 a Notion lookup keyed by email (only if both stages
left a falsy value and the email is truthy).  Returns the resolved value
and the external Notion calls made. -/
def resolve_whatsapp (q : NotionFilter → List String)
    (props : String → List (String × NotionProp))
    (ufr : Option (Option (List (String × String))))
    (responses : Option (List (String × List (String × String))))
    (email : String) : Option String × List NotionCall :=
  let w2 := local_hints_value ufr responses
  if !(pyTruthy w2) && !(email == "") then
    match notion_find_page q (some email) none with
    | (some pid, calls) =>
      let t := scan_telefone (props pid)
      ((match t with | some s => some s | none => w2), calls ++ [.getPage pid])
    | (none, calls) => (w2, calls)
  else (w2, [])

/-! ## The webhook handler (src/main.py lines 336-444)

External collaborators and configuration are collected in `Env`; the JSON
parse plus pydantic validation of lines 353-365 is the oracle `parse`.
The handler result carries the HTTP-visible outcome, the scheduler
registry after the request, the WhatsApp sends that happened, and the
Notion calls made, in order. -/

/-- Configuration and collaborators of one webhook request. -/
structure Env where
  secret : List Nat
  adminPhones : List String
  parse : List Nat → Option CalWebhookPayload
  notionQuery : NotionFilter → List String
  notionProps : String → List (String × NotionProp)
  sendOk : String → Bool

/-- The HTTP-visible outcomes of `cal_webhook`. -/
inductive WebhookOutcome
  | authMissing
  | authInvalid
  | badPayload
  | ignored (kind : String)
  | indexError
  | dispatchError
  | success
deriving DecidableEq, Repr

/-- HTTP status of each outcome: the explicit `HTTPException` codes of the
source (400 line 106, 401 line 110), 200 for handled returns, 500 for
exceptions that propagate out of the handler unhandled: the `attendees[0]`
IndexError of line 372, re-raised dispatch errors of line 437, and parse
failures — invalid JSON raises `json.JSONDecodeError` outside any handler
at line 353, and a pydantic validation failure raises `NameError` because
the `except ValidationError` of line 359 names a symbol the module never
imports, so the intended 400 of line 363 is unreachable. -/
def httpStatus : WebhookOutcome → Nat
  | .authMissing => 400
  | .authInvalid => 401
  | .badPayload => 500
  | .ignored _ => 200
  | .indexError => 500
  | .dispatchError => 500
  | .success => 200

/-- Result of one webhook request. -/
structure HandlerResult where
  outcome : WebhookOutcome
  registry : Registry
  sent : List (String × String)
  notionCalls : List NotionCall
deriving DecidableEq, Repr

/-- The accepted trigger events of src/main.py line 368. -/
def accepted_events : List String :=
  ["BOOKING_CREATED", "BOOKING_RESCHEDULED", "BOOKING_REQUESTED"]

/-- The body of `cal_webhook` after signature verification
(src/main.py lines 351-444): parse and validate (the `parse` oracle covers
`json.loads` plus `model_validate_json`; both failure modes propagate as
500 in the source, see `httpStatus`), filter the event kind, read
`attendees[0]`, run the fallback chain, sync Notion, send immediate
notifications (re-raising on failure), then schedule the deferred
messages. -/
def process_authenticated (env : Env) (reg : Registry) (body : List Nat) : HandlerResult :=
  match env.parse body with
  | none => ⟨.badPayload, reg, [], []⟩
  | some data =>
    if !(accepted_events.contains data.trigger_event) then
      ⟨.ignored data.trigger_event, reg, [], []⟩
    else
      match data.payload.attendees.head? with
      | none => ⟨.indexError, reg, [], []⟩
      | some attendee =>
        let start_dt := data.payload.startTime
        let r := resolve_whatsapp env.notionQuery env.notionProps
          data.payload.userFieldsResponses none attendee.email
        let whatsapp := r.1
        let fp := notion_find_page env.notionQuery (some attendee.email) whatsapp
        let syncCalls :=
          match fp.1 with
          | some pid => fp.2 ++ [.updatePage pid (format_pt_br start_dt)]
          | none => fp.2
        let s := send_immediate_booking_notifications env.sendOk env.adminPhones
          attendee.name whatsapp start_dt
        if s.2 then
          ⟨.success, schedule_messages reg attendee.name start_dt, s.1,
            r.2 ++ syncCalls⟩
        else
          ⟨.dispatchError, reg, s.1, r.2 ++ syncCalls⟩

/-- `cal_webhook` (src/main.py lines 336-444): verify the signature over
the exact raw body first; a missing header raises 400, a digest mismatch
raises 401, both before any parsing, external call, dispatch or
scheduling. -/
def cal_webhook (env : Env) (reg : Registry) (header : Option String)
    (body : List Nat) : HandlerResult :=
  match verify_signature env.secret header body with
  | .error .missingSignature => ⟨.authMissing, reg, [], []⟩
  | .error .invalidSignature => ⟨.authInvalid, reg, [], []⟩
  | .ok _ => process_authenticated env reg body

/-! ## Helper lemmas -/

/-- A fold whose step preserves list length preserves list length. -/
lemma foldl_length_eq {β : Type} (f : List Nat → β → List Nat)
    (hf : ∀ st b, (f st b).length = st.length) :
    ∀ (l : List β) (st : List Nat), (l.foldl f st).length = st.length := by
  intro l
  induction l with
  | nil => intro st; rfl
  | cons b bs ih => intro st; rw [List.foldl_cons, ih, hf]

/-- A compression round keeps the working state's length. -/
lemma sha256round_length (kws st : List Nat) (i : Nat) :
    (sha256round kws st i).length = st.length := by
  rcases st with _ | ⟨a1, _ | ⟨a2, _ | ⟨a3, _ | ⟨a4, _ | ⟨a5, _ | ⟨a6, _ | ⟨a7, _ |
    ⟨a8, _ | ⟨a9, rest⟩⟩⟩⟩⟩⟩⟩⟩⟩ <;> rfl

/-- A compression step keeps the hash state's length. -/
lemma sha256block_length (h blk : List Nat) : (sha256block h blk).length = h.length := by
  unfold sha256block
  rw [List.length_zipWith,
    foldl_length_eq _ (fun st b => sha256round_length _ st b) _ h,
    Nat.min_self]

/-- The final SHA-256 state always has eight words. -/
lemma sha256words_length (msg : List Nat) : (sha256words msg).length = 8 := by
  unfold sha256words
  rw [foldl_length_eq _ (fun st b => sha256block_length st _) _ H256]
  rfl

/-- Serializing words to big-endian bytes quadruples the length. -/
lemma flatten_map_wordBytes_length (l : List Nat) :
    ((l.map wordBytes).flatten).length = 4 * l.length := by
  induction l with
  | nil => rfl
  | cons a as ih =>
    simp [List.map_cons, List.flatten_cons, ih, wordBytes]
    omega

/-- A SHA-256 digest is always 32 bytes. -/
lemma sha256_length (msg : List Nat) : (sha256 msg).length = 32 := by
  unfold sha256
  rw [flatten_map_wordBytes_length, sha256words_length]

/-- An HMAC-SHA256 digest is always 32 bytes. -/
lemma hmacSha256_length (key msg : List Nat) : (hmacSha256 key msg).length = 32 := by
  simp only [hmacSha256]
  exact sha256_length _

/-- Hex rendering doubles the length. -/
lemma bytesToHex_data_length (bs : List Nat) : (bytesToHex bs).data.length = 2 * bs.length := by
  induction bs with
  | nil => rfl
  | cons b rest ih =>
    simp only [bytesToHex, List.map_cons, List.flatten_cons] at ih ⊢
    simp at ih ⊢
    omega

/-- The hex HMAC digest is a 64-character string, so never empty: the
falsy-header 400 branch of `verify_signature` can never swallow a real
digest. -/
lemma hmacHex_ne_empty (key msg : List Nat) : hmacHex key msg ≠ "" := by
  intro he
  have hd := congrArg (fun s => s.data.length) he
  simp only [hmacHex] at hd
  rw [bytesToHex_data_length, hmacSha256_length] at hd
  simp at hd

/-- Boolean form of `hmacHex_ne_empty`, for reducing the falsy-header
check when the header is a digest. -/
lemma hmacHex_beq_empty_false (key msg : List Nat) : (hmacHex key msg == "") = false :=
  beq_eq_false_iff_ne.mpr (hmacHex_ne_empty key msg)

/-- Two job ids built from the same timestamp but different offset suffixes
are different strings. -/
lemma jobSuffixNe (t : Int) {a b : String} (h : a.data ≠ b.data) :
    ("whatsapp_" ++ toString t ++ a) ≠ ("whatsapp_" ++ toString t ++ b) := by
  intro he
  apply h
  have hd := congrArg String.data he
  simp only [String.data_append, List.append_assoc] at hd
  exact List.append_cancel_left (List.append_cancel_left hd)

/-- Boolean form of `jobSuffixNe`, for evaluating `add_job`'s filter. -/
lemma jobSuffixBeqFalse (t : Int) {a b : String} (h : a.data ≠ b.data) :
    (("whatsapp_" ++ toString t ++ a) == ("whatsapp_" ++ toString t ++ b)) = false :=
  beq_eq_false_iff_ne.mpr (jobSuffixNe t h)

/-- One `scheduleSet` invocation on an empty registry: the three job ids
(timestamp plus offset suffix) and the three fire times. -/
lemma schedule_messages_shape (n : String) (t : Int) :
    (schedule_messages [] n t).map (fun j => (j.1, j.2.1)) =
      [("whatsapp_" ++ toString t ++ "_1day", t - 86400),
       ("whatsapp_" ++ toString t ++ "_4h", t - 14400),
       ("whatsapp_" ++ toString t ++ "_after", t + 3600)] := by
  have h14 := jobSuffixBeqFalse t (a := "_1day") (b := "_4h") (by decide)
  have h1a := jobSuffixBeqFalse t (a := "_1day") (b := "_after") (by decide)
  have h4a := jobSuffixBeqFalse t (a := "_4h") (b := "_after") (by decide)
  simp [schedule_messages, add_job, h14, h1a, h4a]

/-- Re-invoking `scheduleSet` with the same timestamp replaces all three
pending entries: the registry still holds exactly three jobs. -/
lemma schedule_messages_replace_same_time (n n' : String) (t : Int) :
    (schedule_messages (schedule_messages [] n t) n' t).length = 3 := by
  have h14 := jobSuffixBeqFalse t (a := "_1day") (b := "_4h") (by decide)
  have h1a := jobSuffixBeqFalse t (a := "_1day") (b := "_after") (by decide)
  have h4a := jobSuffixBeqFalse t (a := "_4h") (b := "_after") (by decide)
  have h41 := jobSuffixBeqFalse t (a := "_4h") (b := "_1day") (by decide)
  have ha1 := jobSuffixBeqFalse t (a := "_after") (b := "_1day") (by decide)
  have ha4 := jobSuffixBeqFalse t (a := "_after") (b := "_4h") (by decide)
  simp [schedule_messages, add_job, h14, h1a, h4a, h41, ha1, ha4]

/-- Ensuring the `55` country code is the same as prepending it to the
stripped form, whether or not the digits already started with `55`. -/
lemma ensure55_eq_strip (l : List Char) : ensure55 l = '5' :: '5' :: strip55 l := by
  rcases l with _ | ⟨a, _ | ⟨b, rest⟩⟩
  · simp [ensure55, strip55, starts55]
  · simp [ensure55, strip55, starts55]
  · by_cases h : (a == '5' && b == '5') = true
    · have hab := (Bool.and_eq_true _ _).mp h
      have ha : a = '5' := beq_iff_eq.mp hab.1
      have hb : b = '5' := beq_iff_eq.mp hab.2
      simp [ensure55, strip55, starts55, ha, hb]
    · simp [ensure55, strip55, starts55, h]

-- Anchor for the civil-date arithmetic: the Unix epoch and the meeting
-- date used by the spec's worked example.
theorem daysFromCivil_epoch : daysFromCivil 1970 1 1 = 0 := by decide

theorem daysFromCivil_2024_03_10 : daysFromCivil 2024 3 10 = 19792 := by decide

/-! ## Claim theorems -/

/-- C1 counterexample: invoking `schedule_messages` a second time for the
same meeting (same caller context, here the same first name) with a
different meeting time does NOT leave three pending jobs — the job ids are
derived from the timestamp, so the second call's three jobs sit beside the
first call's three. -/
theorem c1_second_time_not_replaced_cex :
    ¬ ((schedule_messages (schedule_messages [] "Ana" 1000) "Ana" 2000).length = 3) := by
  decide

/-- C1 amended: job ids are derived from the meeting timestamp and the
offset label only (`schedule_messages` takes no meeting identifier, and
the booking `uid` is never used), so re-registration replaces the three
prior pending entries exactly when the meeting time is unchanged; a second
call with a different meeting time leaves six pending jobs. -/
theorem c1_job_identity_amended :
    (∀ (n n' : String) (t : Int),
      (schedule_messages (schedule_messages [] n t) n' t).length = 3)
    ∧ (schedule_messages (schedule_messages [] "Ana" 1000) "Ana" 2000).length = 6 :=
  ⟨fun n n' t => schedule_messages_replace_same_time n n' t, by decide⟩

/-- C2: for every first name and meeting time, `schedule_messages`
registers exactly three jobs at the fixed offsets −24h, −4h, +1h; and for
the meeting time 2024-03-10T15:00:00 local the three fire times are
2024-03-09T15:00:00, 2024-03-10T11:00:00 and 2024-03-10T16:00:00. -/
theorem c2_schedule_set_offsets :
    (∀ (n : String) (t : Int),
      (schedule_messages [] n t).map (fun j => (j.1, j.2.1)) =
        [("whatsapp_" ++ toString t ++ "_1day", t - 86400),
         ("whatsapp_" ++ toString t ++ "_4h", t - 14400),
         ("whatsapp_" ++ toString t ++ "_after", t + 3600)])
    ∧ ((schedule_messages [] "Maria" (civilToSecs 2024 3 10 15 0 0)).map (fun j => j.2.1) =
       [civilToSecs 2024 3 9 15 0 0,
        civilToSecs 2024 3 10 11 0 0,
        civilToSecs 2024 3 10 16 0 0]) :=
  ⟨fun n t => schedule_messages_shape n t, by decide⟩

/-- C3: `verify_signature` with a present header succeeds exactly when the
header equals the lowercase hex HMAC-SHA256 digest of the raw body bytes
under the secret; a previously valid signature is accepted on a mutated
body exactly when the digests of the two bodies coincide (so any mutation
that changes the digest — in particular every single-byte mutation short
of an HMAC-SHA256 collision — invalidates it); and a concrete single-byte
mutation of a concrete body is in fact rejected. -/
theorem c3_verify_iff_hmac :
    (∀ (secret body : List Nat) (header : String),
      verify_signature secret (some header) body = .ok () ↔
        header = hmacHex secret body)
    ∧ (∀ (secret b : List Nat) (i c : Nat),
      verify_signature secret (some (hmacHex secret b)) (b.set i c) = .ok () ↔
        hmacHex secret (b.set i c) = hmacHex secret b)
    ∧ verify_signature [115, 51, 99, 114, 51, 116]
        (some (hmacHex [115, 51, 99, 114, 51, 116] [104, 101, 108, 108, 111]))
        ([104, 101, 108, 108, 111].set 0 72) = .error .invalidSignature := by
  have base : ∀ (secret body : List Nat) (header : String),
      verify_signature secret (some header) body = .ok () ↔
        header = hmacHex secret body := by
    intro secret body header
    unfold verify_signature
    by_cases hemp : header = ""
    · subst hemp
      simp
      exact fun hcontra => hmacHex_ne_empty secret body hcontra.symm
    · have hbe : (header == "") = false := beq_eq_false_iff_ne.mpr hemp
      simp only [hbe]
      by_cases h : hmacHex secret body == header
      · simp [h, beq_iff_eq.mp h, eq_comm]
      · simp only [Bool.not_eq_true] at h
        simp [h]
        intro he
        exact absurd (beq_iff_eq.mpr he.symm) (by simp [h])
  refine ⟨base, fun secret b i c => (base secret (b.set i c) _).trans eq_comm, ?_⟩
  decide

/-- C5 counterexample: an absent signature header is rejected with HTTP
status 400 (`HTTP_400_BAD_REQUEST`, src/main.py line 106), not with a
401-equivalent as the claim states. -/
theorem c5_missing_signature_status_cex :
    httpStatus (cal_webhook ⟨[], [], fun _ => none, fun _ => [], fun _ => [],
      fun _ => true⟩ [] none []).outcome = 400 ∧ (400 : Nat) ≠ 401 := by
  exact ⟨rfl, by decide⟩

/-- C5 amended: a signature header that is absent — or present but empty,
which line 105's truthiness also treats as missing — rejects with 400
"Missing signature"; a non-empty header that differs from the digest
rejects with 401 "Invalid signature".  In every case the rejection happens
before any other processing — the registry is unchanged and no dispatch
and no external call happens. -/
theorem c5_auth_failures_amended :
    (∀ (env : Env) (reg : Registry) (body : List Nat),
      cal_webhook env reg none body = ⟨.authMissing, reg, [], []⟩)
    ∧ (∀ (env : Env) (reg : Registry) (body : List Nat),
      cal_webhook env reg (some "") body = ⟨.authMissing, reg, [], []⟩)
    ∧ (∀ (env : Env) (reg : Registry) (body : List Nat) (h : String),
      cal_webhook env reg (some h) body =
        if h = "" then ⟨.authMissing, reg, [], []⟩
        else if h = hmacHex env.secret body then process_authenticated env reg body
        else ⟨.authInvalid, reg, [], []⟩)
    ∧ httpStatus .authMissing = 400 ∧ httpStatus .authInvalid = 401 := by
  refine ⟨fun env reg body => rfl, fun env reg body => rfl,
    fun env reg body h => ?_, rfl, rfl⟩
  unfold cal_webhook verify_signature
  by_cases he : h = ""
  · subst he
    simp
  · have hbe : (h == "") = false := beq_eq_false_iff_ne.mpr he
    by_cases hc : h = hmacHex env.secret body
    · subst hc
      simp [hbe, hmacHex_ne_empty env.secret body]
    · have hbc : (hmacHex env.secret body == h) = false :=
        beq_eq_false_iff_ne.mpr (fun hx => hc hx.symm)
      simp [hbe, hbc, he, hc]

/-- C6: phone normalization — the query form strips every non-digit and
drops a present leading `55`, the dispatch form strips every non-digit and
ensures the leading `55`; on `"+55 11 91234-5678"` they give
`"11912345678"` and `"5511912345678"`, and the two stay consistent:
the dispatch form is always `"55"` prepended to the query form. -/
theorem c6_phone_normalization :
    toQueryForm "+55 11 91234-5678" = "11912345678"
    ∧ toDispatchForm "+55 11 91234-5678" = "5511912345678"
    ∧ ∀ (s : String), toDispatchForm s = "55" ++ toQueryForm s := by
  refine ⟨by decide, by decide, fun s => ?_⟩
  show (⟨ensure55 (digitsOf s)⟩ : String) = "55" ++ (⟨strip55 (digitsOf s)⟩ : String)
  rw [ensure55_eq_strip]
  rfl

/-- C9: with neither an email nor a phone/local hint, resolution
short-circuits to "no identity": `notion_find_page(None, None)` returns
`None` with no external query, and the full fallback chain with no hints
and an empty email returns no value and makes no external call — a plain
return value, not an error. -/
theorem c9_no_identity_short_circuit :
    ∀ (q : NotionFilter → List String) (props : String → List (String × NotionProp)),
      notion_find_page q none none = (none, [])
      ∧ resolve_whatsapp q props none none "" = (none, []) :=
  fun _ _ => ⟨rfl, rfl⟩

/-- C4 counterexample: with two admin phones where only the first one's
send fails, `send_wa_bulk` sends nothing at all — the second phone's send
(which would have succeeded, second conjunct) is never attempted, because
`send_wa_message` re-raises and the loop aborts.  Recipient sends are not
independent. -/
theorem c4_independent_sends_cex :
    send_wa_bulk (fun p => !(p == "5511911111111"))
      ["11 91111-1111", "11 92222-2222"] "msg" = ([], false)
    ∧ (fun p => !(p == "5511911111111")) (toDispatchForm "11 92222-2222") = true := by
  decide

/-- C4 amended: recipient sends are sequential and a raised send exception
aborts everything after it — a failing first admin phone prevents the
sends to the remaining admin phones, a failing lead message prevents the
whole admin fan-out, and a dispatch failure makes the webhook itself fail
(500) with no deferred jobs scheduled. -/
theorem c4_sends_abort_amended :
    (∀ (sendOk : String → Bool) (p : String) (ps : List String) (msg : String),
      sendOk (toDispatchForm p) = false →
        send_wa_bulk sendOk (p :: ps) msg = ([], false))
    ∧ (∀ (sendOk : String → Bool) (admins : List String) (nm w : String) (t : Int),
      ¬(w = "") → sendOk (toDispatchForm w) = false →
        send_immediate_booking_notifications sendOk admins nm (some w) t = ([], false))
    ∧ (∀ (env : Env) (reg : Registry) (body : List Nat) (data : CalWebhookPayload)
        (a : Attendee),
      env.parse body = some data →
      accepted_events.contains data.trigger_event = true →
      data.payload.attendees.head? = some a →
      (send_immediate_booking_notifications env.sendOk env.adminPhones a.name
        (resolve_whatsapp env.notionQuery env.notionProps
          data.payload.userFieldsResponses none a.email).1
        data.payload.startTime).2 = false →
      (cal_webhook env reg (some (hmacHex env.secret body)) body).outcome = .dispatchError
      ∧ (cal_webhook env reg (some (hmacHex env.secret body)) body).registry = reg) := by
  refine ⟨?_, ?_, ?_⟩
  · intro sendOk p ps msg hfail
    simp [send_wa_bulk, send_loop, send_wa_message, hfail]
  · intro sendOk admins nm w t hw hfail
    have ht : pyTruthy (some w) = true := by
      simp [pyTruthy, hw]
    simp [send_immediate_booking_notifications, ht, send_wa_message, hfail]
  · intro env reg body data a hp hk ha hfail
    have hres : cal_webhook env reg (some (hmacHex env.secret body)) body =
        ⟨.dispatchError, reg,
          (send_immediate_booking_notifications env.sendOk env.adminPhones a.name
            (resolve_whatsapp env.notionQuery env.notionProps
              data.payload.userFieldsResponses none a.email).1
            data.payload.startTime).1,
          (resolve_whatsapp env.notionQuery env.notionProps
            data.payload.userFieldsResponses none a.email).2 ++
          (match (notion_find_page env.notionQuery (some a.email)
              (resolve_whatsapp env.notionQuery env.notionProps
                data.payload.userFieldsResponses none a.email).1).1 with
           | some pid => (notion_find_page env.notionQuery (some a.email)
              (resolve_whatsapp env.notionQuery env.notionProps
                data.payload.userFieldsResponses none a.email).1).2 ++
              [.updatePage pid (format_pt_br data.payload.startTime)]
           | none => (notion_find_page env.notionQuery (some a.email)
              (resolve_whatsapp env.notionQuery env.notionProps
                data.payload.userFieldsResponses none a.email).1).2)⟩ := by
      have hmem : data.trigger_event ∈ accepted_events := by simpa using hk
      simp [cal_webhook, verify_signature, process_authenticated, hmacHex_beq_empty_false,
        hp, hmem, ha, hfail]
    rw [hres]
    exact ⟨rfl, rfl⟩

/-- C4 amended witness: concrete instantiations of all three parts — a
first-of-two admin failure, a lead failure with a pending admin list, and
a full webhook request whose dispatch failure yields a 500 with the
registry untouched. -/
theorem c4_sends_abort_amended_witness :
    send_wa_bulk (fun _ => false) ["11 91111-1111", "11 92222-2222"] "m" = ([], false)
    ∧ send_immediate_booking_notifications (fun _ => false) ["11 93333-3333"]
        "Ana" (some "11 94444-4444") 0 = ([], false)
    ∧ ((cal_webhook ⟨[7], ["11 93333-3333"],
          fun _ => some ⟨"BOOKING_CREATED", ⟨0, [⟨"Ana", "ana@ex.com"⟩], "u1",
            some (some [("value", "11 94444-4444")])⟩⟩,
          fun _ => [], fun _ => [], fun _ => false⟩ []
          (some (hmacHex [7] [9])) [9]).outcome = .dispatchError
      ∧ (cal_webhook ⟨[7], ["11 93333-3333"],
          fun _ => some ⟨"BOOKING_CREATED", ⟨0, [⟨"Ana", "ana@ex.com"⟩], "u1",
            some (some [("value", "11 94444-4444")])⟩⟩,
          fun _ => [], fun _ => [], fun _ => false⟩ []
          (some (hmacHex [7] [9])) [9]).registry = []) := by
  refine ⟨?_, ?_, ?_⟩
  · exact c4_sends_abort_amended.1 (fun _ => false) "11 91111-1111" ["11 92222-2222"] "m"
      (by decide)
  · exact c4_sends_abort_amended.2.1 (fun _ => false) ["11 93333-3333"] "Ana"
      "11 94444-4444" 0 (by decide) (by decide)
  · exact c4_sends_abort_amended.2.2 _ [] [9] _ ⟨"Ana", "ana@ex.com"⟩ rfl (by decide)
      (by decide) (by decide)

/-- C7: a well-formed, correctly signed webhook whose trigger event lies
outside the accepted set yields the distinguishable `ignored(kind)`
outcome with HTTP 200, leaves the scheduler registry untouched, and makes
zero dispatches and zero external calls. -/
theorem c7_ignored_event :
    ∀ (env : Env) (reg : Registry) (body : List Nat) (data : CalWebhookPayload),
      env.parse body = some data →
      accepted_events.contains data.trigger_event = false →
      cal_webhook env reg (some (hmacHex env.secret body)) body =
        ⟨.ignored data.trigger_event, reg, [], []⟩
      ∧ httpStatus (.ignored data.trigger_event) = 200 := by
  intro env reg body data hp hk
  constructor
  · have hmem : data.trigger_event ∉ accepted_events := by simpa using hk
    simp [cal_webhook, verify_signature, process_authenticated, hmacHex_beq_empty_false,
      hp, hmem]
  · rfl

/-- C7 witness: a signed `BOOKING_CANCELLED` webhook is ignored with a 200
and no effects. -/
theorem c7_ignored_event_witness :
    cal_webhook ⟨[1, 2], ["11 90000-0000"],
        fun _ => some ⟨"BOOKING_CANCELLED", ⟨0, [⟨"Ana", "ana@ex.com"⟩], "u1", none⟩⟩,
        fun _ => [], fun _ => [], fun _ => true⟩ []
        (some (hmacHex [1, 2] [5])) [5] =
      ⟨.ignored "BOOKING_CANCELLED", [], [], []⟩
    ∧ httpStatus (.ignored "BOOKING_CANCELLED") = 200 :=
  c7_ignored_event ⟨[1, 2], ["11 90000-0000"],
      fun _ => some ⟨"BOOKING_CANCELLED", ⟨0, [⟨"Ana", "ana@ex.com"⟩], "u1", none⟩⟩,
      fun _ => [], fun _ => [], fun _ => true⟩ [] [5]
    ⟨"BOOKING_CANCELLED", ⟨0, [⟨"Ana", "ana@ex.com"⟩], "u1", none⟩⟩ rfl (by decide)

/-- C8: the fallback chain stops at the first source with a truthy value —
a truthy stage-1 (`userFieldsResponses`) value is returned with no
external call whatever the later sources hold; with stage 1 falsy, a
stage-2 (`responses`) value is returned with no external call; and the
external Notion lookup is only ever made when both payload-embedded hints
came up falsy and the attendee email is non-empty. -/
theorem c8_fallback_chain_order :
    (∀ (q : NotionFilter → List String) (props : String → List (String × NotionProp))
       (ufr : Option (Option (List (String × String))))
       (responses : Option (List (String × List (String × String)))) (email : String),
      pyTruthy (ufr_whatsapp_value ufr) = true →
        resolve_whatsapp q props ufr responses email = (ufr_whatsapp_value ufr, []))
    ∧ (∀ (q : NotionFilter → List String) (props : String → List (String × NotionProp))
       (ufr : Option (Option (List (String × String))))
       (responses : Option (List (String × List (String × String)))) (email v : String),
      pyTruthy (ufr_whatsapp_value ufr) = false →
      responses_whatsapp_value responses = some v → ¬(v = "") →
        resolve_whatsapp q props ufr responses email = (some v, []))
    ∧ (∀ (q : NotionFilter → List String) (props : String → List (String × NotionProp))
       (ufr : Option (Option (List (String × String))))
       (responses : Option (List (String × List (String × String)))) (email : String),
      (resolve_whatsapp q props ufr responses email).2 ≠ [] →
        pyTruthy (local_hints_value ufr responses) = false ∧ ¬(email = "")) := by
  refine ⟨?_, ?_, ?_⟩
  · intro q props ufr responses email h1
    have hl : local_hints_value ufr responses = ufr_whatsapp_value ufr := by
      simp [local_hints_value, h1]
    simp [resolve_whatsapp, hl, h1]
  · intro q props ufr responses email v h1 h2 hv
    have hl : local_hints_value ufr responses = some v := by
      simp [local_hints_value, h1, h2]
    have htv : pyTruthy (some v) = true := by simp [pyTruthy, hv]
    simp [resolve_whatsapp, hl, htv]
  · intro q props ufr responses email hcalls
    by_cases hloc : pyTruthy (local_hints_value ufr responses) = true
    · exact absurd (by simp [resolve_whatsapp, hloc]) hcalls
    · by_cases hem : email = ""
      · exact absurd (by simp [resolve_whatsapp, hem]) hcalls
      · exact ⟨Bool.not_eq_true _ ▸ hloc, hem⟩

/-- C8 witness: stage 1 wins with no external call; stage 2 wins when
stage 1 is empty, with no external call; and a chain that did consult the
store (non-empty call log) indeed had falsy local hints and a non-empty
email. -/
theorem c8_fallback_chain_order_witness :
    resolve_whatsapp (fun _ => ["pageX"]) (fun _ => [])
        (some (some [("value", "11 91111-1111")]))
        (some [("WhatsApp", [("value", "11 92222-2222")])]) "a@b.c" =
      (some "11 91111-1111", [])
    ∧ resolve_whatsapp (fun _ => ["pageX"]) (fun _ => []) none
        (some [("WhatsApp", [("value", "11 92222-2222")])]) "a@b.c" =
      (some "11 92222-2222", [])
    ∧ (pyTruthy (local_hints_value none none) = false ∧ ¬(("a@b.c" : String) = "")) := by
  refine ⟨?_, ?_, ?_⟩
  · exact c8_fallback_chain_order.1 (fun _ => ["pageX"]) (fun _ => [])
      (some (some [("value", "11 91111-1111")]))
      (some [("WhatsApp", [("value", "11 92222-2222")])]) "a@b.c" (by decide)
  · exact c8_fallback_chain_order.2.1 (fun _ => ["pageX"]) (fun _ => []) none
      (some [("WhatsApp", [("value", "11 92222-2222")])]) "a@b.c" "11 92222-2222"
      (by decide) (by decide) (by decide)
  · exact c8_fallback_chain_order.2.2 (fun _ => ["pageX"]) (fun _ => []) none none
      "a@b.c" (by decide)

/-- C10: the handler reads `attendees[0]` with no emptiness guard.  A
payload whose `attendees` list is empty is a well-typed `Booking` (the
pydantic model puts no minimum length on the list, embedded here by this
very term existing), and a correctly signed webhook carrying it for an
accepted event kind fails with the propagated IndexError (a 500), not
with the 400 of a `ValidationError` rejection. -/
theorem c10_empty_attendees_index_error :
    ∀ (env : Env) (reg : Registry) (body : List Nat),
      env.parse body = some ⟨"BOOKING_CREATED", ⟨0, [], "u-empty", none⟩⟩ →
      cal_webhook env reg (some (hmacHex env.secret body)) body = ⟨.indexError, reg, [], []⟩
      ∧ httpStatus .indexError = 500 ∧ httpStatus .indexError ≠ 400 := by
  intro env reg body hp
  refine ⟨?_, rfl, by decide⟩
  simp [cal_webhook, verify_signature, process_authenticated, hmacHex_beq_empty_false,
    hp, accepted_events]

/-- C10 witness: a concrete signed request with an empty attendees list
reaches the index error. -/
theorem c10_empty_attendees_index_error_witness :
    cal_webhook ⟨[3], [], fun _ => some ⟨"BOOKING_CREATED", ⟨0, [], "u-empty", none⟩⟩,
        fun _ => [], fun _ => [], fun _ => true⟩ []
        (some (hmacHex [3] [4])) [4] = ⟨.indexError, [], [], []⟩
    ∧ httpStatus .indexError = 500 ∧ httpStatus .indexError ≠ 400 :=
  c10_empty_attendees_index_error ⟨[3], [], fun _ => some ⟨"BOOKING_CREATED",
      ⟨0, [], "u-empty", none⟩⟩, fun _ => [], fun _ => [], fun _ => true⟩ [] [4] rfl
